import Mathlib

/-!
Verification of the serverless OAuth sample's claims-processing core.

The definitions below are a shallow embedding of the TypeScript source:
pure functions become Lean functions, JavaScript string primitives
(`parseInt(s, 10)`, `s.split(' ')`) are modelled explicitly, fallible
operations return `Except`, and the inversify container registration is
modelled as an explicit binding list with an instance-allocation counter.
-/

namespace AuthSample

/-! ## JavaScript string primitives -/

/-- Whitespace characters skipped by JavaScript `parseInt` before parsing. -/
def isJsWhitespace (c : Char) : Bool :=
  c = ' ' || c = '\t' || c = '\n' || c = '\r'

/-- Accumulate a base-10 digit list into a natural number. -/
def digitsToNat (ds : List Char) : Nat :=
  ds.foldl (fun n c => n * 10 + (c.toNat - '0'.toNat)) 0

/-- JavaScript `parseInt(s, 10)`: skip leading whitespace, read an optional
sign, then the longest prefix of decimal digits; `none` models `NaN`
(no digits found). Trailing non-digit characters are ignored. -/
def jsParseInt10 (s : String) : Option Int :=
  let l := s.data.dropWhile isJsWhitespace
  let signAndRest : Int × List Char :=
    match l with
    | '-' :: t => (-1, t)
    | '+' :: t => (1, t)
    | t => (1, t)
  let ds := signAndRest.2.takeWhile Char.isDigit
  if ds.isEmpty then none else some (signAndRest.1 * (digitsToNat ds : Int))

/-- Split a character list at every occurrence of `sep`, keeping empty
components, exactly as JavaScript `String.prototype.split` with a
single-character separator does (`''.split(' ') = ['']`,
`'a  b'.split(' ') = ['a','','b']`). -/
def splitOnChar (sep : Char) : List Char → List (List Char)
  | [] => [[]]
  | c :: cs =>
    let r := splitOnChar sep cs
    if c = sep then [] :: r
    else
      match r with
      | [] => [[c]]
      | h :: t => (c :: h) :: t

/-- JavaScript `s.split(' ')` as a string-level operation. -/
def jsSplitSpace (s : String) : List String :=
  (splitOnChar ' ' s.data).map (fun l => String.mk l)

/-- Join components with a separator character: the inverse reading of
"space-separated components" used to characterise `splitOnChar`. -/
def joinSep (sep : Char) : List (List Char) → List Char
  | [] => []
  | [x] => x
  | x :: xs => x ++ sep :: joinSep sep xs

/-! ## Claims data model (`plumbing-base` claims classes) -/

/-- A validated JWT or user-info payload; `getClaim` returns the string
value of a claim, as used by `ClaimsProvider`. -/
structure ClaimsPayload where
  getClaim : String → String

/-- `BaseClaims(subject, scopes, expiry)`; `expiry` is `Option Int`
because JavaScript `parseInt` can yield `NaN` (modelled as `none`). -/
structure BaseClaims where
  subject : String
  scopes : List String
  expiry : Option Int
deriving DecidableEq, Repr

/-- `UserInfoClaims(givenName, familyName, email)`. -/
structure UserInfoClaims where
  givenName : String
  familyName : String
  email : String
deriving DecidableEq, Repr

/-- `CustomClaims`: an open, domain-defined bag of properties; the base
class carries no data. -/
structure CustomClaims where
  properties : List (String × String)
deriving DecidableEq, Repr

/-- `new CustomClaims()` in the base framework: the empty custom claims. -/
def CustomClaims.empty : CustomClaims := ⟨[]⟩

/-- `ApiClaims(base, userInfo, custom)`: the immutable composition. -/
structure ApiClaims where
  base : BaseClaims
  userInfo : UserInfoClaims
  custom : CustomClaims
deriving DecidableEq, Repr

/-- The subject exposed by an `ApiClaims` object comes from its base claims. -/
def ApiClaims.subject (c : ApiClaims) : String := c.base.subject

/-! ## ClaimsProvider -/

/-- `ClaimsProvider._readBaseClaims`: read `sub`, split `scope` on spaces,
`parseInt` the `exp` claim in base 10. -/
def readBaseClaims (data : ClaimsPayload) : BaseClaims :=
  let subject := data.getClaim "sub"
  let scopes := jsSplitSpace (data.getClaim "scope")
  let expiry := jsParseInt10 (data.getClaim "exp")
  ⟨subject, scopes, expiry⟩

/-- `ClaimsProvider._readUserInfoClaims`: read `given_name`, `family_name`
and `email` from the user-info payload. -/
def readUserInfoClaims (data : ClaimsPayload) : UserInfoClaims :=
  let givenName := data.getClaim "given_name"
  let familyName := data.getClaim "family_name"
  let email := data.getClaim "email"
  ⟨givenName, familyName, email⟩

/-- `ClaimsProvider.supplyCustomClaims`, the default implementation: it
ignores both payloads and returns `new CustomClaims()`. -/
def supplyCustomClaimsDefault (_tokenData _userInfoData : ClaimsPayload) : CustomClaims :=
  CustomClaims.empty

/-- `ClaimsProvider.supplyClaims`: compose base claims from the token
payload, user-info claims from the user-info payload, and the custom
claims produced by the (possibly overridden) supplier. The supplier is
passed explicitly since derived classes may override it. -/
def supplyClaims (supplyCustomClaims : ClaimsPayload → ClaimsPayload → CustomClaims)
    (tokenData userInfoData : ClaimsPayload) : ApiClaims :=
  let customClaims := supplyCustomClaims tokenData userInfoData
  ⟨readBaseClaims tokenData, readUserInfoClaims userInfoData, customClaims⟩

/-- One awaited call of `this.supplyCustomClaims(tokenData, userInfoData)`,
instrumented in a counting state monad: each call bumps the counter. -/
def callCustomClaims (supplyCustomClaims : ClaimsPayload → ClaimsPayload → CustomClaims)
    (tokenData userInfoData : ClaimsPayload) : StateM Nat CustomClaims :=
  fun n => (supplyCustomClaims tokenData userInfoData, n + 1)

/-- `ClaimsProvider.supplyClaims` with its supplier call counted: the body
awaits the supplier once, then constructs the `ApiClaims`. -/
def supplyClaimsCounted (supplyCustomClaims : ClaimsPayload → ClaimsPayload → CustomClaims)
    (tokenData userInfoData : ClaimsPayload) : StateM Nat ApiClaims := do
  let customClaims ← callCustomClaims supplyCustomClaims tokenData userInfoData
  pure ⟨readBaseClaims tokenData, readUserInfoClaims userInfoData, customClaims⟩

/-! ## Error codes -/

/-! `BaseErrorCodes` from the base framework: the fixed error-code strings. -/

namespace BaseErrorCodes

def serverError : String := "server_error"

def unauthorizedRequest : String := "unauthorized"

def claimsFailure : String := "claims_failure"

def exceptionSimulation : String := "exception_simulation"

def insufficientScope : String := "insufficient_scope"

end BaseErrorCodes

/-! `SampleErrorCodes` of the sample API. Modelled from the spec: the file
`sampleErrorCodes.ts` is not in the provided sources; only the names
`invalidCompanyId` and `fileReadError` are cited by callers, and the
claims do not depend on the concrete strings. -/

namespace SampleErrorCodes

def invalidCompanyId : String := "invalid_company_id"

def fileReadError : String := "file_read_error"

end SampleErrorCodes

/-- The three failure kinds of the spec's error taxonomy whose external
codes come from `BaseErrorCodes`. -/
inductive FailureKind where
  | unauthorizedError
  | dependencyError
  | simulatedException
deriving DecidableEq, Repr

/-- Modelled from the spec: the exception middleware that maps a failure
kind to its externally visible error code is not in the provided sources;
the spec states `UnauthorizedError` surfaces `unauthorized`,
`DependencyError` surfaces `server_error`, and the simulated-exception
path surfaces `exception_simulation`, each taken from `BaseErrorCodes`. -/
def codeForFailureKind : FailureKind → String
  | .unauthorizedError => BaseErrorCodes.unauthorizedRequest
  | .dependencyError => BaseErrorCodes.serverError
  | .simulatedException => BaseErrorCodes.exceptionSimulation

/-! ## Company-transactions handler (`getCompanyTransactions/handler.ts`) -/

/-- `ClientError(statusCode, errorCode, message)` as thrown by
`ErrorFactory.createClientError`. -/
structure ClientError where
  statusCode : Nat
  errorCode : String
  message : String
deriving DecidableEq, Repr

/-- An API gateway response with a status code and a body. -/
structure ApiResponse (α : Type) where
  statusCode : Nat
  body : α
deriving DecidableEq, Repr

/-- `ResponseWriter.objectResponse(statusCode, body)`. -/
def objectResponse {α : Type} (statusCode : Nat) (body : α) : ApiResponse α :=
  ⟨statusCode, body⟩

/-- `baseHandler` of the company-transactions lambda: parse the path
parameter id with `parseInt(id, 10)`; when the result is `NaN` or not
positive, throw a 400 `ClientError` before the `CompanyService` is
resolved; otherwise invoke the service and return a 200 response.
The service is passed as a function so that the embedding shows the
error path never consults it. -/
def companyTransactionsHandler {α : Type} (service : Int → α) (idPathParameter : String) :
    Except ClientError (ApiResponse α) :=
  match jsParseInt10 idPathParameter with
  | none =>
    .error ⟨400, SampleErrorCodes.invalidCompanyId, "The company id must be a positive numeric integer"⟩
  | some id =>
    if id ≤ 0 then
      .error ⟨400, SampleErrorCodes.invalidCompanyId, "The company id must be a positive numeric integer"⟩
    else
      .ok (objectResponse 200 (service id))

/-! ## Composition root: cache selection (`_createOAuthCache`) -/

/-- The two reference cache implementations named by the source. -/
inductive CacheKind where
  | development
  | aws
deriving DecidableEq, Repr

/-- `BaseCompositionRoot._createOAuthCache` as written in the source: the
development-cache branch (keyed on `process.env.IS_LOCAL`) is commented
out, so an `AwsCache` is constructed regardless of the environment.
`isLocal` models `process.env.IS_LOCAL === 'true'`. -/
def createOAuthCache (_isLocal : Bool) : CacheKind :=
  CacheKind.aws

/-- Modelled from the spec: the environment-dependent selection the spec
describes — in-memory development cache locally, `AwsCache` in
production — for comparison with the source's `createOAuthCache`. -/
def createOAuthCacheSpec (isLocal : Bool) : CacheKind :=
  if isLocal then CacheKind.development else CacheKind.aws

/-! ## Composition root: dependency registration (`register`) -/

/-- The inversify service identifiers bound by `BaseCompositionRoot`. -/
inductive DiKey where
  | logEntry
  | httpProxy
  | baseClaims
  | userInfoClaims
  | customClaims
  | oauthConfiguration
  | jwksRetriever
  | accessTokenRetriever
  | oauthAuthenticator
  | jwtValidator
deriving DecidableEq, Repr

/-- The classes whose objects appear in the registration: pre-existing
singletons, `{}` placeholders, the `JwksRetriever` constructed inside
`register`, and the three classes bound in transient scope. -/
inductive DiClass where
  | placeholderObject
  | httpProxyObject
  | oauthConfigurationObject
  | jwksRetrieverClass
  | accessTokenRetrieverClass
  | oauthAuthenticatorClass
  | jwtValidatorClass
deriving DecidableEq, Repr

/-- An object reference: its class and an allocation identity. -/
structure ObjRef where
  cls : DiClass
  objId : Nat
deriving DecidableEq, Repr

/-- An inversify binding: `toConstantValue(v)` always resolves to the same
object `v`; `to(C).inTransientScope()` constructs a fresh instance of
class `C` on every resolution. -/
inductive BindingTarget where
  | constantValue (value : ObjRef)
  | transientTo (cls : DiClass)
deriving DecidableEq, Repr

/-- `_registerBaseDependencies`: a `{}` placeholder for the per-request
`LogEntry` and the pre-existing `HttpProxy` singleton, both bound with
`toConstantValue`. Returns the bindings, the next fresh allocation id,
and the objects allocated here. -/
def registerBaseDependencies (httpProxy : ObjRef) (fresh : Nat) :
    List (DiKey × BindingTarget) × Nat × List ObjRef :=
  let logEntryPlaceholder : ObjRef := ⟨.placeholderObject, fresh⟩
  ([(.logEntry, .constantValue logEntryPlaceholder),
    (.httpProxy, .constantValue httpProxy)],
   fresh + 1, [logEntryPlaceholder])

/-- `_registerClaimsDependencies`: three `{}` placeholders bound with
`toConstantValue`, overridden per request at runtime. -/
def registerClaimsDependencies (fresh : Nat) :
    List (DiKey × BindingTarget) × Nat × List ObjRef :=
  let b : ObjRef := ⟨.placeholderObject, fresh⟩
  let u : ObjRef := ⟨.placeholderObject, fresh + 1⟩
  let c : ObjRef := ⟨.placeholderObject, fresh + 2⟩
  ([(.baseClaims, .constantValue b),
    (.userInfoClaims, .constantValue u),
    (.customClaims, .constantValue c)],
   fresh + 3, [b, u, c])

/-- `_registerOAuthDependencies`: construct one `JwksRetriever`, bind the
configuration and that retriever with `toConstantValue`, and bind the
three per-request classes `inTransientScope`. -/
def registerOAuthDependencies (oauthConfiguration : ObjRef) (fresh : Nat) :
    List (DiKey × BindingTarget) × Nat × List ObjRef :=
  let jwksRetriever : ObjRef := ⟨.jwksRetrieverClass, fresh⟩
  ([(.oauthConfiguration, .constantValue oauthConfiguration),
    (.jwksRetriever, .constantValue jwksRetriever),
    (.accessTokenRetriever, .transientTo .accessTokenRetrieverClass),
    (.oauthAuthenticator, .transientTo .oauthAuthenticatorClass),
    (.jwtValidator, .transientTo .jwtValidatorClass)],
   fresh + 1, [jwksRetriever])

/-- `BaseCompositionRoot.register`: base, claims and OAuth registrations
in order, accumulating the bindings and the objects allocated. -/
def registerAll (oauthConfiguration httpProxy : ObjRef) (fresh : Nat) :
    List (DiKey × BindingTarget) × Nat × List ObjRef :=
  let base := registerBaseDependencies httpProxy fresh
  let claims := registerClaimsDependencies base.2.1
  let oauth := registerOAuthDependencies oauthConfiguration claims.2.1
  (base.1 ++ claims.1 ++ oauth.1, oauth.2.1, base.2.2 ++ claims.2.2 ++ oauth.2.2)

/-- Look up the binding registered for a service identifier. -/
def diLookup (bindings : List (DiKey × BindingTarget)) (key : DiKey) : Option BindingTarget :=
  (bindings.find? (fun b => b.1 = key)).map (·.2)

/-- Resolve a service identifier during a request: a constant-value
binding returns the stored object; a transient-scope binding constructs
a fresh instance, whose allocation id `requestFresh` is unique to the
resolving request. -/
def diResolve (bindings : List (DiKey × BindingTarget)) (key : DiKey) (requestFresh : Nat) :
    Option ObjRef :=
  match diLookup bindings key with
  | some (.constantValue v) => some v
  | some (.transientTo c) => some ⟨c, requestFresh⟩
  | none => none

/-! ## MiddlewareHelper (`middlewareHelper.ts`) -/

/-- A lambda event as seen by `enrichApiOperation`: the authorizer sets
`event.claims` when authorization succeeds; `none` models an absent
(undefined, falsy) `claims` property, `some` a claims object (always
truthy in JavaScript). `rest` stands for the remaining event fields. -/
structure LambdaEvent (γ : Type) where
  claims : Option ApiClaims
  rest : γ

/-- The handler body produced by `MiddlewareHelper.enrichApiOperation`:
it awaits the wrapped business operation only when `event.claims` is
truthy, and otherwise completes normally returning undefined (`none`). -/
def enrichApiOperation {γ δ ρ : Type}
    (operation : LambdaEvent γ → δ → ρ) (event : LambdaEvent γ) (context : δ) : Option ρ :=
  if event.claims.isSome then
    some (operation event context)
  else
    none

/-! ## JsonFileReader (`jsonFileReader.ts`) -/

/-- A JavaScript exception as caught by `readData`: either an `Error`
instance (with `message` and `stack`) or some other thrown value. -/
inductive JsException where
  | jsError (message : String) (stack : String)
  | jsOther (value : String)
deriving DecidableEq, Repr

/-- `e.stack`: the stack of an `Error`, undefined (empty) otherwise. -/
def JsException.stackOf : JsException → String
  | .jsError _ stack => stack
  | .jsOther _ => ""

/-- The `details` stored by the catch block: `e.message` when
`e instanceof Error`, otherwise the thrown value itself. -/
def JsException.detailsOf : JsException → String
  | .jsError message _ => message
  | .jsOther value => value

/-- `ServerError` as built by `ErrorFactory.createServerError` plus the
subsequent `setDetails` call. -/
structure ServerError where
  errorCode : String
  message : String
  stack : String
  details : String
deriving DecidableEq, Repr

/-- The error thrown by `readData`'s catch block for a caught exception. -/
def mkFileReadError (e : JsException) : ServerError :=
  ⟨SampleErrorCodes.fileReadError, "Problem encountered reading data", e.stackOf, e.detailsOf⟩

/-- `JsonFileReader.readData`: read the file, JSON-parse its contents, and
wrap any exception from either step in a `ServerError`. The file system
and the JSON parser are external effects, passed as fallible functions. -/
def readData {α : Type}
    (readFile : String → Except JsException String)
    (jsonParse : String → Except JsException α)
    (filePath : String) : Except ServerError α :=
  match readFile filePath with
  | .error e => .error (mkFileReadError e)
  | .ok buffer =>
    match jsonParse buffer with
    | .error e => .error (mkFileReadError e)
    | .ok value => .ok value

/-! ## Example payloads (spec section 8 worked example) -/

/-- A token payload for the spec's worked example. -/
def exampleTokenPayload : ClaimsPayload :=
  ⟨fun name =>
    if name = "sub" then "a6b404b1-98af-41a2-8e7f-e4061dc0bf86"
    else if name = "scope" then "openid profile"
    else if name = "exp" then "1752000000"
    else ""⟩

/-- A user-info payload for the spec's worked example. -/
def exampleUserInfoPayload : ClaimsPayload :=
  ⟨fun name =>
    if name = "given_name" then "Guest"
    else if name = "family_name" then "User"
    else if name = "email" then "guestuser@x.com"
    else ""⟩

/-- A payload agreeing with `exampleUserInfoPayload` on the three
user-info claims but differing everywhere else. -/
def exampleUserInfoPayloadVariant : ClaimsPayload :=
  ⟨fun name =>
    if name = "given_name" then "Guest"
    else if name = "family_name" then "User"
    else if name = "email" then "guestuser@x.com"
    else "unrelated"⟩

/-! ## Helper lemmas about the split embedding -/

lemma splitOnChar_ne_nil (sep : Char) (l : List Char) : splitOnChar sep l ≠ [] := by
  induction l with
  | nil => simp [splitOnChar]
  | cons c cs ih =>
    simp only [splitOnChar]
    split
    · simp
    · split
      · simp
      · simp

lemma splitOnChar_cons_exists (sep : Char) (l : List Char) :
    ∃ hd tl, splitOnChar sep l = hd :: tl := by
  cases h : splitOnChar sep l with
  | nil => exact absurd h (splitOnChar_ne_nil sep l)
  | cons a b => exact ⟨a, b, rfl⟩

/-- Joining the components of `splitOnChar` with the separator restores
the original list: the components really are the separator-separated
pieces of the input. -/
lemma joinSep_splitOnChar (sep : Char) (l : List Char) :
    joinSep sep (splitOnChar sep l) = l := by
  induction l with
  | nil => rfl
  | cons c cs ih =>
    simp only [splitOnChar]
    obtain ⟨hd, tl, hr⟩ := splitOnChar_cons_exists sep cs
    by_cases hc : c = sep
    · rw [if_pos hc, hr]
      have ih' : joinSep sep (hd :: tl) = cs := hr ▸ ih
      simp [joinSep, ih', hc]
    · rw [if_neg hc, hr]
      cases tl with
      | nil =>
        have ih' : joinSep sep [hd] = cs := hr ▸ ih
        simp only [joinSep] at ih' ⊢
        simp [ih']
      | cons t1 ts =>
        have ih' : joinSep sep (hd :: t1 :: ts) = cs := hr ▸ ih
        simp only [joinSep] at ih' ⊢
        rw [← ih']
        simp

/-- No component produced by `splitOnChar` contains the separator. -/
lemma splitOnChar_not_mem (sep : Char) (l : List Char) :
    ∀ p ∈ splitOnChar sep l, sep ∉ p := by
  induction l with
  | nil =>
    intro p hp
    simp only [splitOnChar, List.mem_singleton] at hp
    simp [hp]
  | cons c cs ih =>
    intro p hp
    simp only [splitOnChar] at hp
    obtain ⟨hd, tl, hr⟩ := splitOnChar_cons_exists sep cs
    by_cases hc : c = sep
    · rw [if_pos hc] at hp
      rcases List.mem_cons.mp hp with h | h
      · simp [h]
      · exact ih p h
    · rw [if_neg hc, hr] at hp
      rcases List.mem_cons.mp hp with h | h
      · subst h
        intro hmem
        rcases List.mem_cons.mp hmem with h' | h'
        · exact hc h'.symm
        · exact ih hd (hr ▸ List.mem_cons_self hd tl) h'
      · exact ih p (hr ▸ List.mem_cons_of_mem hd h)

/-! ## Claim theorems -/

/-- C1: for every token payload with string claims `sub`, `scope` and
`exp`, `_readBaseClaims` yields a `BaseClaims` whose subject is the `sub`
claim, whose scopes are exactly the space-separated components of the
`scope` claim (joining them with spaces restores the claim and no
component contains a space), and whose expiry is the base-10 integer
parse of the `exp` claim; in particular the composed `ApiClaims.subject`
equals the token's subject claim. -/
theorem readBaseClaims_from_token_payload (d u : ClaimsPayload)
    (supplier : ClaimsPayload → ClaimsPayload → CustomClaims) :
    (readBaseClaims d).subject = d.getClaim "sub" ∧
    (readBaseClaims d).scopes = jsSplitSpace (d.getClaim "scope") ∧
    joinSep ' ' ((readBaseClaims d).scopes.map String.data) = (d.getClaim "scope").data ∧
    ((readBaseClaims d).scopes.all fun p => decide (' ' ∉ p.data)) = true ∧
    (readBaseClaims d).expiry = jsParseInt10 (d.getClaim "exp") ∧
    (supplyClaims supplier d u).subject = d.getClaim "sub" := by
  refine ⟨rfl, rfl, ?_, ?_, rfl, rfl⟩
  · have h := joinSep_splitOnChar ' ' (d.getClaim "scope").data
    have hcomp : (String.data ∘ fun l : List Char => String.mk l) = id :=
      funext fun _ => rfl
    simpa [readBaseClaims, jsSplitSpace, List.map_map, hcomp] using h
  · simp only [List.all_eq_true, decide_eq_true_eq]
    intro p hp
    simp only [readBaseClaims, jsSplitSpace, List.mem_map] at hp
    obtain ⟨l, hl, rfl⟩ := hp
    exact splitOnChar_not_mem ' ' (d.getClaim "scope").data l hl

/-- C2: `supplyClaims` returns an `ApiClaims` built exactly from the base
claims of the token payload, the user-info claims of the user-info
payload, and the supplier's custom claims; being a pure function of
those three inputs it performs no network or cache access. The last
conjunct checks the spec's worked example. -/
theorem supplyClaims_pure_composition
    (supplier : ClaimsPayload → ClaimsPayload → CustomClaims) (t u : ClaimsPayload) :
    supplyClaims supplier t u =
      ⟨readBaseClaims t, readUserInfoClaims u, supplier t u⟩ ∧
    (supplyClaims supplier t u).base = readBaseClaims t ∧
    (supplyClaims supplier t u).userInfo = readUserInfoClaims u ∧
    (supplyClaims supplier t u).custom = supplier t u ∧
    supplyClaims supplyCustomClaimsDefault exampleTokenPayload exampleUserInfoPayload =
      ⟨⟨"a6b404b1-98af-41a2-8e7f-e4061dc0bf86", ["openid", "profile"], some 1752000000⟩,
       ⟨"Guest", "User", "guestuser@x.com"⟩, CustomClaims.empty⟩ := by
  refine ⟨rfl, rfl, rfl, rfl, ?_⟩
  decide

/-- C6: the default `supplyCustomClaims` returns the empty `CustomClaims`
for every pair of payloads, and `supplyClaims` invokes the supplier
exactly once per composition: under the call-counting embedding the
counter rises by exactly one, while the composed result is unchanged. -/
theorem supplyCustomClaims_default_empty_called_once
    (supplier : ClaimsPayload → ClaimsPayload → CustomClaims)
    (t u : ClaimsPayload) (n : Nat) :
    supplyCustomClaimsDefault t u = CustomClaims.empty ∧
    ((supplyClaimsCounted supplier t u).run n).2 = n + 1 ∧
    ((supplyClaimsCounted supplier t u).run n).1 = supplyClaims supplier t u := by
  exact ⟨rfl, rfl, rfl⟩

/-- C7: `_readUserInfoClaims` copies exactly the `given_name`,
`family_name` and `email` claims of the user-info payload; any payload
agreeing on those three claims yields the same `UserInfoClaims`, so
nothing else is read. -/
theorem readUserInfoClaims_from_userinfo_payload (d : ClaimsPayload) :
    (readUserInfoClaims d).givenName = d.getClaim "given_name" ∧
    (readUserInfoClaims d).familyName = d.getClaim "family_name" ∧
    (readUserInfoClaims d).email = d.getClaim "email" ∧
    ∀ d' : ClaimsPayload,
      d'.getClaim "given_name" = d.getClaim "given_name" →
      d'.getClaim "family_name" = d.getClaim "family_name" →
      d'.getClaim "email" = d.getClaim "email" →
      readUserInfoClaims d' = readUserInfoClaims d := by
  refine ⟨rfl, rfl, rfl, ?_⟩
  intro d' h1 h2 h3
  simp [readUserInfoClaims, h1, h2, h3]

/-- C7 witness: the agreement hypotheses discharged at the two example
user-info payloads, which differ only on claims outside the three read. -/
theorem readUserInfoClaims_from_userinfo_payload_witness :
    readUserInfoClaims exampleUserInfoPayloadVariant =
      readUserInfoClaims exampleUserInfoPayload :=
  (readUserInfoClaims_from_userinfo_payload exampleUserInfoPayload).2.2.2
    exampleUserInfoPayloadVariant rfl rfl rfl

/-- C3 counterexample: with `IS_LOCAL` set (`isLocal = true`) the source's
`_createOAuthCache` still constructs the `AwsCache`, not the in-memory
development cache — the environment-dependent branch is commented out —
so the selection differs from the spec's description in that case. -/
theorem createOAuthCache_not_env_dependent :
    createOAuthCache true = CacheKind.aws ∧
    createOAuthCache true ≠ CacheKind.development ∧
    createOAuthCache true ≠ createOAuthCacheSpec true := by
  decide

/-- C3 amended: `_createOAuthCache` constructs the distributed `AwsCache`
implementation for every environment; the in-memory development-cache
selection exists only as commented-out code. -/
theorem createOAuthCache_always_aws (isLocal : Bool) :
    createOAuthCache isLocal = CacheKind.aws := rfl

/-- C4: the company-transactions handler throws a 400 `ClientError` with
code `invalidCompanyId` whenever `parseInt(id, 10)` is `NaN` or not
positive — and that outcome never consults the service — while every id
parsing to a positive integer reaches the service and produces a 200
response carrying its result. -/
theorem companyTransactionsHandler_validates_id {α : Type}
    (service : Int → α) (idPathParameter : String) :
    (jsParseInt10 idPathParameter = none →
      companyTransactionsHandler service idPathParameter =
        .error ⟨400, SampleErrorCodes.invalidCompanyId,
          "The company id must be a positive numeric integer"⟩) ∧
    (∀ v : Int, jsParseInt10 idPathParameter = some v → v ≤ 0 →
      companyTransactionsHandler service idPathParameter =
        .error ⟨400, SampleErrorCodes.invalidCompanyId,
          "The company id must be a positive numeric integer"⟩) ∧
    (∀ v : Int, jsParseInt10 idPathParameter = some v → 0 < v →
      companyTransactionsHandler service idPathParameter =
        .ok (objectResponse 200 (service v))) ∧
    (∀ service' : Int → α,
      (jsParseInt10 idPathParameter = none ∨
        ∃ v, jsParseInt10 idPathParameter = some v ∧ v ≤ 0) →
      companyTransactionsHandler service idPathParameter =
        companyTransactionsHandler service' idPathParameter) := by
  refine ⟨?_, ?_, ?_, ?_⟩
  · intro h
    simp [companyTransactionsHandler, h]
  · intro v hv hle
    simp [companyTransactionsHandler, hv, if_pos hle]
  · intro v hv hpos
    have : ¬ v ≤ 0 := not_le.mpr hpos
    simp [companyTransactionsHandler, hv, if_neg this]
  · intro service' h
    rcases h with h | ⟨v, hv, hle⟩
    · simp [companyTransactionsHandler, h]
    · simp [companyTransactionsHandler, hv, if_pos hle]

/-- C4 witness: a non-numeric id and the id `0` are rejected with the 400
`invalidCompanyId` error while the id `2` reaches the service. -/
theorem companyTransactionsHandler_validates_id_witness :
    companyTransactionsHandler (fun i => i) "abc" =
      .error ⟨400, SampleErrorCodes.invalidCompanyId,
        "The company id must be a positive numeric integer"⟩ ∧
    companyTransactionsHandler (fun i => i) "0" =
      .error ⟨400, SampleErrorCodes.invalidCompanyId,
        "The company id must be a positive numeric integer"⟩ ∧
    companyTransactionsHandler (fun i => i) "2" = .ok (objectResponse 200 2) :=
  ⟨(companyTransactionsHandler_validates_id (fun i => i) "abc").1 (by decide),
   (companyTransactionsHandler_validates_id (fun i => i) "0").2.1 0 (by decide) (by decide),
   (companyTransactionsHandler_validates_id (fun i => i) "2").2.2.1 2 (by decide) (by decide)⟩

/-- C5: the externally visible codes for the three failure kinds are the
fixed strings declared by `BaseErrorCodes` — `unauthorized` for
unauthorized outcomes, `server_error` for dependency failures,
`exception_simulation` for the test-only simulation path — and no other
code string is emitted for these kinds. -/
theorem errorCodes_fixed_strings :
    BaseErrorCodes.unauthorizedRequest = "unauthorized" ∧
    BaseErrorCodes.serverError = "server_error" ∧
    BaseErrorCodes.exceptionSimulation = "exception_simulation" ∧
    codeForFailureKind FailureKind.unauthorizedError = "unauthorized" ∧
    codeForFailureKind FailureKind.dependencyError = "server_error" ∧
    codeForFailureKind FailureKind.simulatedException = "exception_simulation" ∧
    ∀ k : FailureKind,
      codeForFailureKind k ∈
        (["unauthorized", "server_error", "exception_simulation"] : List String) := by
  refine ⟨rfl, rfl, rfl, rfl, rfl, rfl, ?_⟩
  intro k
  cases k <;> simp [codeForFailureKind, BaseErrorCodes.unauthorizedRequest,
    BaseErrorCodes.serverError, BaseErrorCodes.exceptionSimulation]

/-- C8: `register()` allocates exactly one `JwksRetriever` object, binds
it with `toConstantValue` so every resolution in every request returns
that same instance, and binds `AccessTokenRetriever`,
`OAuthAuthenticator` and `JwtValidator` in transient scope so distinct
requests obtain distinct fresh instances. -/
theorem register_jwks_singleton_transient_rest
    (oauthConfiguration httpProxy : ObjRef) (fresh : Nat) :
    (((registerAll oauthConfiguration httpProxy fresh).2.2).filter
        (fun o => decide (o.cls = DiClass.jwksRetrieverClass))).length = 1 ∧
    (∃ j : Nat,
      (⟨DiClass.jwksRetrieverClass, j⟩ : ObjRef) ∈
        (registerAll oauthConfiguration httpProxy fresh).2.2 ∧
      diLookup (registerAll oauthConfiguration httpProxy fresh).1 DiKey.jwksRetriever =
        some (.constantValue ⟨DiClass.jwksRetrieverClass, j⟩) ∧
      ∀ r : Nat,
        diResolve (registerAll oauthConfiguration httpProxy fresh).1 DiKey.jwksRetriever r =
          some ⟨DiClass.jwksRetrieverClass, j⟩) ∧
    (∀ r1 r2 : Nat,
      diResolve (registerAll oauthConfiguration httpProxy fresh).1 DiKey.jwksRetriever r1 =
        diResolve (registerAll oauthConfiguration httpProxy fresh).1 DiKey.jwksRetriever r2) ∧
    diLookup (registerAll oauthConfiguration httpProxy fresh).1 DiKey.accessTokenRetriever =
      some (.transientTo DiClass.accessTokenRetrieverClass) ∧
    diLookup (registerAll oauthConfiguration httpProxy fresh).1 DiKey.oauthAuthenticator =
      some (.transientTo DiClass.oauthAuthenticatorClass) ∧
    diLookup (registerAll oauthConfiguration httpProxy fresh).1 DiKey.jwtValidator =
      some (.transientTo DiClass.jwtValidatorClass) ∧
    (∀ r1 r2 : Nat, r1 ≠ r2 →
      diResolve (registerAll oauthConfiguration httpProxy fresh).1
          DiKey.accessTokenRetriever r1 ≠
        diResolve (registerAll oauthConfiguration httpProxy fresh).1
          DiKey.accessTokenRetriever r2 ∧
      diResolve (registerAll oauthConfiguration httpProxy fresh).1
          DiKey.oauthAuthenticator r1 ≠
        diResolve (registerAll oauthConfiguration httpProxy fresh).1
          DiKey.oauthAuthenticator r2 ∧
      diResolve (registerAll oauthConfiguration httpProxy fresh).1
          DiKey.jwtValidator r1 ≠
        diResolve (registerAll oauthConfiguration httpProxy fresh).1
          DiKey.jwtValidator r2) := by
  refine ⟨rfl, ⟨fresh + 1 + 3, ?_, rfl, fun r => rfl⟩, fun r1 r2 => rfl, rfl, rfl, rfl, ?_⟩
  · show (⟨DiClass.jwksRetrieverClass, fresh + 1 + 3⟩ : ObjRef) ∈
      [(⟨DiClass.placeholderObject, fresh⟩ : ObjRef), ⟨DiClass.placeholderObject, fresh + 1⟩,
       ⟨DiClass.placeholderObject, fresh + 1 + 1⟩, ⟨DiClass.placeholderObject, fresh + 1 + 2⟩,
       ⟨DiClass.jwksRetrieverClass, fresh + 1 + 3⟩]
    simp
  · intro r1 r2 hne
    refine ⟨fun h => hne ?_, fun h => hne ?_, fun h => hne ?_⟩ <;>
      exact congrArg ObjRef.objId (Option.some.inj h)

/-- C8 witness: with concrete registration inputs, resolving the
`JwksRetriever` in two different requests yields the same instance while
resolving the transient services yields distinct instances. -/
theorem register_jwks_singleton_transient_rest_witness :
    diResolve (registerAll ⟨DiClass.oauthConfigurationObject, 100⟩
        ⟨DiClass.httpProxyObject, 101⟩ 0).1 DiKey.jwksRetriever 7 =
      diResolve (registerAll ⟨DiClass.oauthConfigurationObject, 100⟩
        ⟨DiClass.httpProxyObject, 101⟩ 0).1 DiKey.jwksRetriever 8 ∧
    diResolve (registerAll ⟨DiClass.oauthConfigurationObject, 100⟩
        ⟨DiClass.httpProxyObject, 101⟩ 0).1 DiKey.accessTokenRetriever 7 ≠
      diResolve (registerAll ⟨DiClass.oauthConfigurationObject, 100⟩
        ⟨DiClass.httpProxyObject, 101⟩ 0).1 DiKey.accessTokenRetriever 8 :=
  ⟨(register_jwks_singleton_transient_rest ⟨DiClass.oauthConfigurationObject, 100⟩
      ⟨DiClass.httpProxyObject, 101⟩ 0).2.2.1 7 8,
   ((register_jwks_singleton_transient_rest ⟨DiClass.oauthConfigurationObject, 100⟩
      ⟨DiClass.httpProxyObject, 101⟩ 0).2.2.2.2.2.2 7 8 (by decide)).1⟩

/-- C9: the handler body built by `enrichApiOperation` invokes the wrapped
operation exactly when `event.claims` is set, returning its result; when
`event.claims` is absent it completes normally with `none` (undefined),
without invoking the operation — the outcome is the same for every
operation. -/
theorem enrichApiOperation_requires_claims {γ δ ρ : Type}
    (operation : LambdaEvent γ → δ → ρ) (event : LambdaEvent γ) (context : δ) :
    (∀ c : ApiClaims, event.claims = some c →
      enrichApiOperation operation event context = some (operation event context)) ∧
    (event.claims = none → enrichApiOperation operation event context = none) ∧
    (event.claims = none → ∀ operation' : LambdaEvent γ → δ → ρ,
      enrichApiOperation operation event context =
        enrichApiOperation operation' event context) := by
  refine ⟨?_, ?_, ?_⟩
  · intro c hc
    simp [enrichApiOperation, hc]
  · intro hc
    simp [enrichApiOperation, hc]
  · intro hc operation'
    simp [enrichApiOperation, hc]

/-- C9 witness: with claims present the operation's result is returned;
with claims absent the handler returns `none`. -/
theorem enrichApiOperation_requires_claims_witness :
    enrichApiOperation (fun (_ : LambdaEvent Unit) (_ : Unit) => (42 : Nat))
      ⟨some (supplyClaims supplyCustomClaimsDefault exampleTokenPayload
        exampleUserInfoPayload), ()⟩ () = some 42 ∧
    enrichApiOperation (fun (_ : LambdaEvent Unit) (_ : Unit) => (42 : Nat))
      ⟨none, ()⟩ () = none :=
  ⟨(enrichApiOperation_requires_claims _ _ ()).1
      (supplyClaims supplyCustomClaimsDefault exampleTokenPayload exampleUserInfoPayload) rfl,
   (enrichApiOperation_requires_claims _ _ ()).2.1 rfl⟩

/-- C10: `readData` either returns the JSON-parsed contents of the file,
or fails with a `ServerError` carrying code `fileReadError`, the message
`Problem encountered reading data`, and details and stack taken from the
exception actually caught: when the file read fails with `e`, the thrown
error is built from that `e`; when the read succeeds and the JSON parse
fails with `e`, from that `e`; and the details field selects the
exception's message when it is an `Error`, otherwise the thrown value
itself. The `Except ServerError` result type admits no other escaping
error. -/
theorem readData_json_or_file_read_error {α : Type}
    (readFile : String → Except JsException String)
    (jsonParse : String → Except JsException α)
    (filePath : String) :
    (∀ e : JsException, readFile filePath = .error e →
      readData readFile jsonParse filePath =
        .error ⟨SampleErrorCodes.fileReadError, "Problem encountered reading data",
          e.stackOf, e.detailsOf⟩) ∧
    (∀ buffer : String, readFile filePath = .ok buffer →
      (∀ e : JsException, jsonParse buffer = .error e →
        readData readFile jsonParse filePath =
          .error ⟨SampleErrorCodes.fileReadError, "Problem encountered reading data",
            e.stackOf, e.detailsOf⟩) ∧
      (∀ value : α, jsonParse buffer = .ok value →
        readData readFile jsonParse filePath = .ok value)) ∧
    (∀ m s : String, (JsException.jsError m s).detailsOf = m) ∧
    (∀ v : String, (JsException.jsOther v).detailsOf = v) := by
  refine ⟨?_, ?_, fun m s => rfl, fun v => rfl⟩
  · intro e he
    simp [readData, he, mkFileReadError]
  · intro buffer hb
    refine ⟨?_, ?_⟩
    · intro e he
      simp [readData, hb, he, mkFileReadError]
    · intro value hv
      simp [readData, hb, hv]

/-- C10 witness: a failing file read surfaces its own message and stack in
the thrown `ServerError`; a successful read and parse returns the parsed
value. -/
theorem readData_json_or_file_read_error_witness :
    readData (fun _ => .error (.jsError "ENOENT: no such file" "stack-a"))
        (fun _ => Except.ok (0 : Nat)) "data.json" =
      .error ⟨SampleErrorCodes.fileReadError, "Problem encountered reading data",
        "stack-a", "ENOENT: no such file"⟩ ∧
    readData (fun _ => Except.ok "[1]") (fun s => Except.ok s) "data.json" =
      Except.ok "[1]" :=
  ⟨(readData_json_or_file_read_error
      (fun _ => .error (.jsError "ENOENT: no such file" "stack-a"))
      (fun _ => Except.ok (0 : Nat)) "data.json").1
      (.jsError "ENOENT: no such file" "stack-a") rfl,
   ((readData_json_or_file_read_error
      (fun _ => Except.ok "[1]") (fun s => Except.ok s) "data.json").2.1
      "[1]" rfl).2 "[1]" rfl⟩

end AuthSample
